import Mathlib

/-!
Shallow embedding of the offline-cache reconciliation logic of the
personal-library client (book list screen, offline storage, network
monitor and catalog-client payloads), together with proofs of the
behavioural properties stated for it.

The list-screen controller (`src/unnamed/part_001`) is modelled as a pure
state-transition system: every asynchronous handler of the component
becomes a function from the controller state (the React `useState` /
`useRef` cells plus the persisted cache slot) to a new state, with the
outcome of the awaited I/O passed in as an argument and user-visible side
effects (alerts, the one-time offline notice, the automatic refetch)
returned alongside the state.
-/

/-- A book as declared in `src/services/BooksService.ts` (`Book`).
Optional fields are `Option`; the JS `number` fields are modelled as `Int`
(year) and `ℚ` (rating, which may be fractional before clamping). -/
structure Book where
  id : String
  name : String
  author : String
  editor : Option String := none
  year : Option Int := none
  read : Option Bool := none
  favorite : Option Bool := none
  theme : Option String := none
  rating : Option ℚ := none
  cover : Option String := none
  deriving DecidableEq, Repr

/-- `CachedBookList` from `src/services/OfflineStorage.ts`: the single
persisted snapshot (book list plus save time in epoch millis). -/
structure CachedBookList where
  books : List Book
  savedAt : Nat
  deriving DecidableEq, Repr

/-- The device-reported network state used by the component
(`expo-network`'s `NetworkState`): both fields may be absent. -/
structure NetworkState where
  isConnected : Option Bool := none
  isInternetReachable : Option Bool := none
  deriving DecidableEq, Repr

/-- The derived "online" boolean of `src/unnamed/part_001` (lines 176-177
and 197-198): `Boolean(state.isConnected) && state.isInternetReachable
!== false`.  `Boolean(undefined)` is `false`; `undefined !== false` is
`true`, so absent reachability counts as reachable. -/
def isOnline (st : NetworkState) : Bool :=
  st.isConnected.getD false && st.isInternetReachable != some false

/-- Strict lexicographic comparison of code-point sequences, written as a
structurally recursive boolean so that concrete sorts evaluate.  It models
the total order induced by the `localeCompare(..., "fr")` comparator; no
property proved below depends on which total order the comparator
induces. -/
def strLtb : List Char → List Char → Bool
  | [], [] => false
  | [], _ :: _ => true
  | _ :: _, [] => false
  | a :: as, b :: bs =>
    if a.toNat < b.toNat then true
    else if b.toNat < a.toNat then false
    else strLtb as bs

/-- The non-strict order used to sort theme lists: `a ≤ b` iff `b` is not
strictly below `a`. -/
def strLe (a b : String) : Prop := strLtb b.data a.data = false

instance : DecidableRel strLe := fun a b =>
  inferInstanceAs (Decidable (strLtb b.data a.data = false))

instance : IsTotal String strLe where
  total a b := by
    have asymm : ∀ x y : List Char, strLtb x y = true → strLtb y x = false := by
      intro x
      induction x with
      | nil =>
        intro y h
        cases y with
        | nil => rfl
        | cons b bs => rfl
      | cons a as ih =>
        intro y h
        cases y with
        | nil => simp [strLtb] at h
        | cons b bs =>
          simp only [strLtb] at h ⊢
          by_cases h1 : a.toNat < b.toNat
          · have h2 : ¬ b.toNat < a.toNat := by omega
            simp [h1, h2]
          · by_cases h2 : b.toNat < a.toNat
            · simp [h1, h2] at h
            · simp only [h1, h2, if_false] at h ⊢
              exact ih bs h
    by_cases hb : strLtb b.data a.data = true
    · exact Or.inr (asymm _ _ hb)
    · exact Or.inl (by simpa [strLe] using hb)

instance : IsTrans String strLe where
  trans a b c hab hbc := by
    have nilR : ∀ l : List Char, strLtb l [] = false := by
      intro l; cases l <;> rfl
    have leTrans : ∀ x y z : List Char,
        strLtb y x = false → strLtb z y = false → strLtb z x = false := by
      intro x
      induction x with
      | nil => intro y z _ _; exact nilR z
      | cons a as ih =>
        intro y z h1 h2
        cases y with
        | nil => simp [strLtb] at h1
        | cons b bs =>
          cases z with
          | nil => simp [strLtb] at h2
          | cons c cs =>
            simp only [strLtb] at h1 h2 ⊢
            by_cases hba : b.toNat < a.toNat
            · simp [hba] at h1
            · by_cases hcb : c.toNat < b.toNat
              · simp [hcb] at h2
              · have hca : ¬ c.toNat < a.toNat := by omega
                by_cases hac : a.toNat < c.toNat
                · simp [hca, hac]
                · have hab' : ¬ a.toNat < b.toNat := by omega
                  have hbc' : ¬ b.toNat < c.toNat := by omega
                  simp only [hba, hab', if_false] at h1
                  simp only [hcb, hbc', if_false] at h2
                  simp only [hca, hac, if_false]
                  exact ih bs cs h1 h2
    exact leTrans a.data b.data c.data hab hbc

/-- One JS `Set` insertion step: a `Set` keeps insertion order and ignores
an element already present. -/
def jsSetAdd (l : List String) (x : String) : List String :=
  if x ∈ l then l else l ++ [x]

/-- `new Set(prev)` for a string array: fold the JS `Set` insertion over
the array, starting from the empty set. -/
def jsSetOfList (l : List String) : List String := l.foldl jsSetAdd []

/-- The `forEach` body of `syncThemesFromData` (`src/unnamed/part_001`,
lines 94-98): `if (item.theme) combined.add(item.theme)` — the check is
JS truthiness, so the empty string is skipped too. -/
def addTheme (acc : List String) (item : Book) : List String :=
  match item.theme with
  | some t => if t = "" then acc else jsSetAdd acc t
  | none => acc

/-- The `next` array computed inside `syncThemesFromData`
(`src/unnamed/part_001`, lines 91-101): a `Set` seeded with `prev`, each
truthy `item.theme` added, then sorted with the
`(a, b) => a.localeCompare(b, "fr")` comparator, modelled by `strLe`. -/
def themesNext (prev : List String) (data : List Book) : List String :=
  (data.foldl addTheme (jsSetOfList prev)).insertionSort strLe

/-- The redundant-write test of `syncThemesFromData` (lines 102-107):
`next.length === prev.length && next.every((value, index) => value ===
prev[index])`. -/
def themesWriteSkipped (prev : List String) (data : List Book) : Bool :=
  let next := themesNext prev data
  next.length == prev.length &&
    (List.range next.length).all fun i => next.getD i "" == prev.getD i ""

/-- `syncThemesFromData` (lines 91-110): the functional updater passed to
`setAvailableThemes` — it returns the previous array unchanged (skipping
the state write) when the derived array is element-for-element identical,
and the derived array otherwise. -/
def syncThemesFromData (prev : List String) (data : List Book) : List String :=
  if themesWriteSkipped prev data then prev else themesNext prev data

/-- Modelled from the spec: the set of known theme values re-derived
"from the resulting in-memory collection" alone — the deduplicated,
sorted list of the truthy theme values present in `data`, with no
contribution from the previously known themes.  Declared only to compare
the spec's wording against the code's `syncThemesFromData`. -/
def themesFromCollectionSpec (data : List Book) : List String :=
  (data.foldl addTheme []).insertionSort strLe

/-- The state of the list-screen controller (`src/unnamed/part_001`):
the `useState` cells and `useRef` cells that the reconciliation logic
touches, plus the persisted cache slot owned by `OfflineStorage`. -/
structure CtrlState where
  books : List Book
  loading : Bool
  initialLoading : Bool
  status : Option String
  availableThemes : List String
  offlineMode : Bool
  lastSync : Option Nat
  offlineRef : Bool
  hasLocalCacheRef : Bool
  cache : Option CachedBookList
  deriving DecidableEq, Repr

/-- The controller state at mount (lines 38-54): empty list, loading
flags set, no status, no themes, offline flags clear, refs false.  The
persisted cache slot may already hold a snapshot from a prior session. -/
def initState (c : Option CachedBookList) : CtrlState :=
  { books := []
    loading := true
    initialLoading := true
    status := none
    availableThemes := []
    offlineMode := false
    lastSync := none
    offlineRef := false
    hasLocalCacheRef := false
    cache := c }

/-- The one-time offline notice text (line 127). -/
def offlineNotice : String :=
  "Connexion indisponible. Affichage des donnees locales."

/-- The success path of `loadBooks` (lines 112-122 plus the `finally`
block): store the fetched data, re-derive the themes, persist the
snapshot via `saveBooksCache` (which swallows a storage-write failure —
`writeOk` — but still returns the timestamp), record the sync time, mark
the cache ref, clear the offline flags, clear the loading flags. -/
def loadBooksSuccess (s : CtrlState) (data : List Book) (now : Nat)
    (writeOk : Bool) : CtrlState :=
  { s with
      books := data
      availableThemes := syncThemesFromData s.availableThemes data
      cache := if writeOk then some ⟨data, now⟩ else s.cache
      lastSync := some now
      hasLocalCacheRef := true
      offlineMode := false
      offlineRef := false
      loading := false
      initialLoading := false }

/-- Result of the failure path of `loadBooks`: the new state, whether the
one-time offline notice was emitted (`setStatus` called), and the
blocking alert, if any. -/
structure FailOut where
  state : CtrlState
  noticeEmitted : Bool
  alert : Option String
  deriving DecidableEq, Repr

/-- The catch branch of `loadBooks` (lines 123-137): with a cache ref the
controller keeps the displayed data, emits the one-time notice only when
not already offline, and sets the offline flags; with no cache ref it
surfaces a blocking alert with the error message.  The `finally` block
clears the loading flags in both cases. -/
def loadBooksFail (s : CtrlState) (errMsg : String) : FailOut :=
  if s.hasLocalCacheRef then
    { state :=
        { s with
            status := if !s.offlineRef then some offlineNotice else s.status
            offlineMode := true
            offlineRef := true
            loading := false
            initialLoading := false }
      noticeEmitted := !s.offlineRef
      alert := none }
  else
    { state := { s with loading := false, initialLoading := false }
      noticeEmitted := false
      alert := some errMsg }

/-- The mount-time cache-load effect resolving (lines 140-161): the value
read from storage arrives; `if (!cached || canceled) return;` discards it
when absent or when the effect was cleaned up (unmount); otherwise the
cached books are displayed, themes re-derived, sync time restored and the
cache ref set. -/
def cacheResolve (s : CtrlState) (cached : Option CachedBookList)
    (canceled : Bool) : CtrlState :=
  match cached with
  | none => s
  | some c =>
    if canceled then s
    else
      { s with
          hasLocalCacheRef := true
          books := c.books
          availableThemes := syncThemesFromData s.availableThemes c.books
          lastSync := some c.savedAt
          loading := false
          initialLoading := false }

/-- Result of one network-listener callback: the new state and whether an
automatic refetch (`loadBooks()`) was issued by this callback. -/
structure NetOut where
  state : CtrlState
  refetchIssued : Bool
  deriving DecidableEq, Repr

/-- One invocation of the `Network.addNetworkStateListener` callback
(lines 175-189): when the derived state is online, the offline flags are
cleared and — if the effect is still mounted and the controller was
offline — a single `loadBooks()` is issued; when offline, the offline
flags are set proactively. -/
def netListener (s : CtrlState) (mounted : Bool) (st : NetworkState) :
    NetOut :=
  if isOnline st then
    let wasOffline := s.offlineRef
    { state := { s with offlineMode := false, offlineRef := false }
      refetchIssued := mounted && wasOffline }
  else
    { state := { s with offlineMode := true, offlineRef := true }
      refetchIssued := false }

/-- The one-shot `Network.getNetworkStateAsync` check at mount
(lines 191-206): only when still mounted, offline per the derived boolean
and a cache ref exists are the offline flags set. -/
def netInitialCheck (s : CtrlState) (mounted : Bool) (st : NetworkState) :
    CtrlState :=
  if mounted && (!isOnline st && s.hasLocalCacheRef) then
    { s with offlineMode := true, offlineRef := true }
  else s

/-- The status auto-dismiss effect (lines 224-230): after the 3 s timer
fires, the status banner is cleared. -/
def statusClear (s : CtrlState) : CtrlState := { s with status := none }

/-- `setBooks` updater shared by the three list-screen mutation handlers
(lines 249-250, 288-289, 328-329): replace the element whose id matches
the mutated book with the server response. -/
def applyUpdate (books : List Book) (id : String) (updated : Book) :
    List Book :=
  books.map fun item => if item.id = id then updated else item

/-- Result of a mutation handler: the new state and the error alert, if
any. -/
structure MutOut where
  state : CtrlState
  alert : Option String
  deriving DecidableEq, Repr

/-- Common success path of the three list-screen mutation handlers
(`handleToggleRead` lines 249-264, `handleToggleFavorite` lines 288-303,
`handleRate` lines 328-341): splice the server response into the list,
re-derive the themes, persist the snapshot (storage failure `writeOk`
swallowed by `saveBooksCache`), record the sync time and cache ref, clear
the offline flags and show the given status message. -/
def mutationSuccess (s : CtrlState) (id : String) (updated : Book)
    (now : Nat) (writeOk : Bool) (msg : String) : CtrlState :=
  let next := applyUpdate s.books id updated
  { s with
      books := next
      availableThemes := syncThemesFromData s.availableThemes next
      cache := if writeOk then some ⟨next, now⟩ else s.cache
      lastSync := some now
      hasLocalCacheRef := true
      offlineMode := false
      offlineRef := false
      status := some msg }

/-- Common catch branch of the three list-screen mutation handlers
(lines 265-270, 304-309, 342-347, textually identical): set the offline
flags again and surface the error in an alert; the book list is not
touched. -/
def mutationFail (s : CtrlState) (errMsg : String) : MutOut :=
  { state := { s with offlineMode := true, offlineRef := true }
    alert := some errMsg }

/-- `handleToggleRead` (lines 236-273), with the awaited `updateBook`
outcome passed in. -/
def handleToggleRead (s : CtrlState) (b : Book)
    (outcome : Except String Book) (now : Nat) (writeOk : Bool) : MutOut :=
  match outcome with
  | .ok updated =>
    { state := mutationSuccess s b.id updated now writeOk
        (if b.read.getD false then "Livre marque comme non lu : " ++ b.name
         else "Livre marque comme lu : " ++ b.name)
      alert := none }
  | .error e => mutationFail s e

/-- `handleToggleFavorite` (lines 275-312), with the awaited `updateBook`
outcome passed in. -/
def handleToggleFavorite (s : CtrlState) (b : Book)
    (outcome : Except String Book) (now : Nat) (writeOk : Bool) : MutOut :=
  match outcome with
  | .ok updated =>
    { state := mutationSuccess s b.id updated now writeOk
        (if !b.favorite.getD false then
           "Livre ajoute aux favoris : " ++ b.name
         else "Livre retire des favoris : " ++ b.name)
      alert := none }
  | .error e => mutationFail s e

/-- JS `Math.round`: round to nearest, ties toward positive infinity. -/
def jsRound (q : ℚ) : ℤ := ⌊q + 1 / 2⌋

/-- The rating clamp of `handleRate` (`src/unnamed/part_001`, line 316)
and of `handleStarPress` (`src/unnamed/part_000`, line 105):
`Math.min(Math.max(Math.round(rating), 1), 5)`. -/
def boundedRating (rating : ℚ) : ℤ := min (max (jsRound rating) 1) 5

/-- `handleRate` (lines 314-350): clamp the submitted rating, send the
full payload with the clamped value, and on either outcome behave as the
other mutation handlers do. -/
def handleRate (s : CtrlState) (b : Book) (rating : ℚ)
    (outcome : Except String Book) (now : Nat) (writeOk : Bool) : MutOut :=
  let bounded := boundedRating rating
  match outcome with
  | .ok updated =>
    { state := mutationSuccess s b.id updated now writeOk
        ("Note mise a jour : " ++ toString bounded ++ " etoile(s) pour "
          ++ b.name)
      alert := none }
  | .error e => mutationFail s e

/-- The `BookPayload` sent by `handleRate` (lines 318-327): the full
field set with the clamped rating. -/
def ratePayloadRating (rating : ℚ) : Option ℚ :=
  some ((boundedRating rating : ℤ) : ℚ)

/-- `handleSubmit` of the create screen (`src/app/books/new.tsx`,
lines 11-24): it awaits `createBook` and only shows an alert (success or
error) and navigates back.  That screen holds no offline flag and writes
no cache, so the list controller's state `s` is untouched; the returned
pair carries the alert title and message. -/
def handleCreateSubmit (s : CtrlState) (outcome : Except String Book) :
    CtrlState × String × String :=
  match outcome with
  | .ok _ => (s, "Succes", "Livre ajoute avec succes.")
  | .error e => (s, "Erreur", e)

/-- The states of the list-screen controller reachable from mount through
the events modelled above.  The cache value delivered to `cacheResolve`
is left arbitrary (an over-approximation of what the storage read can
return), which only enlarges the reachable set. -/
inductive Reachable : CtrlState → Prop where
  | init (c : Option CachedBookList) : Reachable (initState c)
  | fetchSuccess {s} (data : List Book) (now : Nat) (writeOk : Bool) :
      Reachable s → Reachable (loadBooksSuccess s data now writeOk)
  | fetchFail {s} (e : String) :
      Reachable s → Reachable (loadBooksFail s e).state
  | cacheLoad {s} (cached : Option CachedBookList) (canceled : Bool) :
      Reachable s → Reachable (cacheResolve s cached canceled)
  | net {s} (mounted : Bool) (st : NetworkState) :
      Reachable s → Reachable (netListener s mounted st).state
  | netInit {s} (mounted : Bool) (st : NetworkState) :
      Reachable s → Reachable (netInitialCheck s mounted st)
  | toggleRead {s} (b : Book) (outcome : Except String Book) (now : Nat)
      (writeOk : Bool) :
      Reachable s → Reachable (handleToggleRead s b outcome now writeOk).state
  | toggleFavorite {s} (b : Book) (outcome : Except String Book) (now : Nat)
      (writeOk : Bool) :
      Reachable s →
        Reachable (handleToggleFavorite s b outcome now writeOk).state
  | rate {s} (b : Book) (rating : ℚ) (outcome : Except String Book)
      (now : Nat) (writeOk : Bool) :
      Reachable s → Reachable (handleRate s b rating outcome now writeOk).state
  | dismiss {s} : Reachable s → Reachable (statusClear s)

/-- A sample book used for concrete evaluations. -/
def bookDune : Book :=
  { id := "1", name := "Dune", author := "Herbert"
    theme := some "Science-fiction" }

/-- A second sample book, distinct from `bookDune`. -/
def bookAutre : Book :=
  { id := "2", name := "Autre", author := "X" }

/-- A controller state displaying a collection with a recorded cache
snapshot, currently online. -/
def exCachedState : CtrlState :=
  { initState none with
      books := [bookDune]
      hasLocalCacheRef := true
      loading := false
      initialLoading := false }

/-- A controller state holding a cache snapshot while offline-flagged. -/
def exOfflineState : CtrlState :=
  { exCachedState with offlineMode := true, offlineRef := true }

/-- A network state reporting a connection with unknown reachability. -/
def exOnlineNet : NetworkState := { isConnected := some true }

/-- In every reachable controller state, as long as no cache snapshot was
ever recorded (`hasLocalCacheRef` still false), the displayed collection
is still the initial empty list. -/
theorem reachable_books_nil_of_no_cache {s : CtrlState} (h : Reachable s) :
    s.hasLocalCacheRef = false → s.books = [] := by
  induction h with
  | init c => intro _; rfl
  | fetchSuccess data now writeOk hr ih =>
    intro href; simp [loadBooksSuccess] at href
  | fetchFail e hr ih =>
    intro href
    simp only [loadBooksFail] at href ⊢
    split at href <;> simp_all
  | cacheLoad cached canceled hr ih =>
    intro href
    cases cached with
    | none => exact ih href
    | some c =>
      simp only [cacheResolve] at href ⊢
      split at href <;> simp_all
  | net mounted st hr ih =>
    intro href
    simp only [netListener] at href ⊢
    split at href <;> simp_all
  | netInit mounted st hr ih =>
    intro href
    simp only [netInitialCheck] at href ⊢
    split at href <;> simp_all
  | toggleRead b outcome now writeOk hr ih =>
    intro href
    cases outcome with
    | ok updated => simp [handleToggleRead, mutationSuccess] at href
    | error e => exact ih href
  | toggleFavorite b outcome now writeOk hr ih =>
    intro href
    cases outcome with
    | ok updated => simp [handleToggleFavorite, mutationSuccess] at href
    | error e => exact ih href
  | rate b rating outcome now writeOk hr ih =>
    intro href
    cases outcome with
    | ok updated => simp [handleRate, mutationSuccess] at href
    | error e => exact ih href
  | dismiss hr ih =>
    intro href
    exact ih href

/-- Membership after one JS `Set` insertion. -/
theorem mem_jsSetAdd {x y : String} {l : List String} :
    x ∈ jsSetAdd l y ↔ x ∈ l ∨ x = y := by
  unfold jsSetAdd
  split
  · next hy =>
    constructor
    · exact Or.inl
    · rintro (hx | rfl)
      · exact hx
      · exact hy
  · simp [List.mem_append]

/-- A JS `Set` insertion never introduces a duplicate. -/
theorem nodup_jsSetAdd {l : List String} (h : l.Nodup) (y : String) :
    (jsSetAdd l y).Nodup := by
  unfold jsSetAdd
  split
  · exact h
  · next hy => simp [List.nodup_append, h, hy]

/-- Membership after one `forEach` step of the theme fold. -/
theorem mem_addTheme {x : String} {acc : List String} {b : Book} :
    x ∈ addTheme acc b ↔ x ∈ acc ∨ (b.theme = some x ∧ x ≠ "") := by
  cases hb : b.theme with
  | none => simp [addTheme, hb]
  | some t =>
    by_cases ht : t = ""
    · subst ht
      simp only [addTheme, hb, if_pos rfl, Option.some.injEq]
      constructor
      · exact Or.inl
      · rintro (h | ⟨rfl, hne⟩)
        · exact h
        · exact absurd rfl hne
    · simp only [addTheme, hb, if_neg ht, mem_jsSetAdd, Option.some.injEq]
      constructor
      · rintro (h | rfl)
        · exact Or.inl h
        · exact Or.inr ⟨rfl, ht⟩
      · rintro (h | ⟨rfl, hne⟩)
        · exact Or.inl h
        · exact Or.inr rfl

/-- One `forEach` step of the theme fold preserves deduplication. -/
theorem nodup_addTheme {acc : List String} (h : acc.Nodup) (b : Book) :
    (addTheme acc b).Nodup := by
  unfold addTheme
  cases b.theme with
  | none => exact h
  | some t =>
    by_cases ht : t = ""
    · simpa [ht] using h
    · simpa [ht] using nodup_jsSetAdd h t

/-- Membership in the theme fold over a whole collection. -/
theorem mem_foldl_addTheme (data : List Book) (acc : List String)
    (x : String) :
    x ∈ data.foldl addTheme acc ↔
      x ∈ acc ∨ ∃ b ∈ data, b.theme = some x ∧ x ≠ "" := by
  induction data generalizing acc with
  | nil => simp
  | cons b bs ih =>
    rw [List.foldl_cons, ih, mem_addTheme, List.exists_mem_cons_iff]
    tauto

/-- The theme fold over a whole collection preserves deduplication. -/
theorem nodup_foldl_addTheme (data : List Book) {acc : List String}
    (h : acc.Nodup) : (data.foldl addTheme acc).Nodup := by
  induction data generalizing acc with
  | nil => exact h
  | cons b bs ih => exact ih (nodup_addTheme h b)

/-- Membership in a JS `Set` built from a string array. -/
theorem mem_foldl_jsSetAdd (l : List String) (acc : List String)
    (x : String) : x ∈ l.foldl jsSetAdd acc ↔ x ∈ acc ∨ x ∈ l := by
  induction l generalizing acc with
  | nil => simp
  | cons y ys ih =>
    rw [List.foldl_cons, ih, mem_jsSetAdd, List.mem_cons]
    tauto

/-- `new Set(prev)` has the same members as `prev`. -/
theorem mem_jsSetOfList (l : List String) (x : String) :
    x ∈ jsSetOfList l ↔ x ∈ l := by
  simp [jsSetOfList, mem_foldl_jsSetAdd]

/-- A JS `Set` built from a string array holds no duplicates. -/
theorem nodup_jsSetOfList (l : List String) : (jsSetOfList l).Nodup := by
  have : ∀ (l acc : List String), acc.Nodup → (l.foldl jsSetAdd acc).Nodup := by
    intro l
    induction l with
    | nil => intro acc h; exact h
    | cons y ys ih => intro acc h; exact ih _ (nodup_jsSetAdd h y)
  exact this l [] List.nodup_nil

/-- The derived theme list is sorted by the modelled comparator. -/
theorem themesNext_sorted (prev : List String) (data : List Book) :
    List.Sorted strLe (themesNext prev data) :=
  List.sorted_insertionSort strLe _

/-- The derived theme list holds no duplicates. -/
theorem themesNext_nodup (prev : List String) (data : List Book) :
    (themesNext prev data).Nodup :=
  ((List.perm_insertionSort strLe _).nodup_iff).mpr
    (nodup_foldl_addTheme data (nodup_jsSetOfList prev))

/-- The derived theme list holds exactly the previously known themes and
the truthy theme values of the collection. -/
theorem mem_themesNext (prev : List String) (data : List Book)
    (x : String) :
    x ∈ themesNext prev data ↔
      x ∈ prev ∨ ∃ b ∈ data, b.theme = some x ∧ x ≠ "" := by
  unfold themesNext
  rw [List.mem_insertionSort, mem_foldl_addTheme, mem_jsSetOfList]

/-- The redundant-write test succeeds exactly when the derived list is
equal to the previous one. -/
theorem themesWriteSkipped_iff (prev : List String) (data : List Book) :
    themesWriteSkipped prev data = true ↔ themesNext prev data = prev := by
  simp only [themesWriteSkipped, Bool.and_eq_true, beq_iff_eq,
    List.all_eq_true, List.mem_range]
  constructor
  · rintro ⟨hlen, hall⟩
    apply List.ext_getElem hlen
    intro i h1 h2
    have hi := hall i h1
    rwa [List.getD_eq_getElem _ _ h1, List.getD_eq_getElem _ _ h2] at hi
  · intro h
    rw [h]
    exact ⟨rfl, fun i _ => rfl⟩

/-- C1: a list fetch that throws while a cache snapshot exists (the cache
ref is set) keeps the displayed book collection unchanged, makes the
offline flag (state and ref) true, and raises no blocking alert. -/
theorem claim1_fetch_fail_with_cache (s : CtrlState) (e : String)
    (h : s.hasLocalCacheRef = true) :
    (loadBooksFail s e).state.books = s.books ∧
    (loadBooksFail s e).state.offlineMode = true ∧
    (loadBooksFail s e).state.offlineRef = true ∧
    (loadBooksFail s e).alert = none := by
  simp [loadBooksFail, h]

/-- C1 witness: the theorem applied to a concrete cached state. -/
theorem claim1_fetch_fail_with_cache_witness :
    exCachedState.hasLocalCacheRef = true ∧
    ((loadBooksFail exCachedState "Erreur").state.books =
        exCachedState.books ∧
      (loadBooksFail exCachedState "Erreur").state.offlineMode = true ∧
      (loadBooksFail exCachedState "Erreur").state.offlineRef = true ∧
      (loadBooksFail exCachedState "Erreur").alert = none) :=
  ⟨rfl, claim1_fetch_fail_with_cache exCachedState "Erreur" rfl⟩

/-- C2: in any reachable controller state in which no cache snapshot was
ever recorded, a fetch failure surfaces the blocking alert carrying the
error message, leaves the offline flag as it was, emits no offline
notice, and the displayed collection stays the empty list. -/
theorem claim2_fetch_fail_no_cache {s : CtrlState} (e : String)
    (hr : Reachable s) (h : s.hasLocalCacheRef = false) :
    (loadBooksFail s e).alert = some e ∧
    (loadBooksFail s e).state.books = [] ∧
    (loadBooksFail s e).state.offlineMode = s.offlineMode ∧
    (loadBooksFail s e).noticeEmitted = false := by
  have hb := reachable_books_nil_of_no_cache hr h
  simp [loadBooksFail, h, hb]

/-- C2 witness: the theorem applied to the freshly mounted state. -/
theorem claim2_fetch_fail_no_cache_witness :
    (initState none).hasLocalCacheRef = false ∧
    ((loadBooksFail (initState none) "Erreur reseau").alert =
        some "Erreur reseau" ∧
      (loadBooksFail (initState none) "Erreur reseau").state.books = [] ∧
      (loadBooksFail (initState none) "Erreur reseau").state.offlineMode =
        (initState none).offlineMode ∧
      (loadBooksFail (initState none) "Erreur reseau").noticeEmitted
        = false) :=
  ⟨rfl, claim2_fetch_fail_no_cache "Erreur reseau" (Reachable.init none) rfl⟩

/-- C3: a network-listener callback reporting online while the offline
flag is set issues exactly one automatic refetch, a further online report
issues none, and when that refetch succeeds the offline flag becomes
false and the cache snapshot is overwritten with the new data and the new
timestamp. -/
theorem claim3_recovery_refetch (s : CtrlState) (st st2 : NetworkState)
    (data : List Book) (now : Nat)
    (hoff : s.offlineRef = true) (hon : isOnline st = true)
    (hon2 : isOnline st2 = true) :
    (netListener s true st).refetchIssued = true ∧
    (netListener (netListener s true st).state true st2).refetchIssued
      = false ∧
    (loadBooksSuccess (netListener s true st).state data now true).offlineMode
      = false ∧
    (loadBooksSuccess (netListener s true st).state data now true).offlineRef
      = false ∧
    (loadBooksSuccess (netListener s true st).state data now true).cache
      = some ⟨data, now⟩ ∧
    (loadBooksSuccess (netListener s true st).state data now true).lastSync
      = some now := by
  simp [netListener, loadBooksSuccess, hon, hon2, hoff]

/-- C3 witness: the theorem applied to a concrete offline-flagged state
and a connected network report. -/
theorem claim3_recovery_refetch_witness :
    (exOfflineState.offlineRef = true ∧ isOnline exOnlineNet = true) ∧
    ((netListener exOfflineState true exOnlineNet).refetchIssued = true ∧
      (netListener (netListener exOfflineState true exOnlineNet).state true
          exOnlineNet).refetchIssued = false ∧
      (loadBooksSuccess (netListener exOfflineState true exOnlineNet).state
          [bookAutre] 7 true).offlineMode = false ∧
      (loadBooksSuccess (netListener exOfflineState true exOnlineNet).state
          [bookAutre] 7 true).offlineRef = false ∧
      (loadBooksSuccess (netListener exOfflineState true exOnlineNet).state
          [bookAutre] 7 true).cache = some ⟨[bookAutre], 7⟩ ∧
      (loadBooksSuccess (netListener exOfflineState true exOnlineNet).state
          [bookAutre] 7 true).lastSync = some 7) :=
  ⟨⟨rfl, rfl⟩, claim3_recovery_refetch exOfflineState exOnlineNet exOnlineNet
    [bookAutre] 7 rfl rfl rfl⟩

/-- C4: the offline notice is edge-triggered — a fetch failure emits the
one-time notice exactly when a cache snapshot exists and the offline flag
is still false, in which case the notice text is stored in the status;
and a second consecutive fetch failure never emits a notice. -/
theorem claim4_notice_edge_triggered (s : CtrlState) (e1 e2 : String) :
    (loadBooksFail s e1).noticeEmitted
      = (s.hasLocalCacheRef && !s.offlineRef) ∧
    (loadBooksFail s e1).state.status
      = (if s.hasLocalCacheRef && !s.offlineRef then some offlineNotice
         else s.status) ∧
    (loadBooksFail (loadBooksFail s e1).state e2).noticeEmitted = false := by
  by_cases h : s.hasLocalCacheRef = true <;>
    by_cases h2 : s.offlineRef = true <;>
      simp [loadBooksFail, h, h2]

/-- C5 counterexample: the live fetch succeeds first (with `[bookDune]`),
then the mount-time cache read resolves late (snapshot `[bookAutre]`,
screen still mounted) — the displayed collection afterwards is not the
live fetch's result, so the late cache read does overwrite the `ONLINE`
state. -/
theorem claim5_counterexample :
    (cacheResolve (loadBooksSuccess (initState none) [bookDune] 5 true)
        (some ⟨[bookAutre], 3⟩) false).books ≠ [bookDune] := by
  decide

/-- C5 amended: after a successful live fetch, a late-resolving cache
read whose snapshot is present and whose effect was not canceled
overwrites the displayed collection with the cached books; the live
result stays displayed only when the snapshot is absent or the effect was
canceled by unmount. -/
theorem claim5_late_cache_read (s : CtrlState) (data : List Book)
    (now : Nat) (writeOk : Bool) (c : CachedBookList) (canceled : Bool) :
    (cacheResolve (loadBooksSuccess s data now writeOk) (some c)
        false).books = c.books ∧
    (cacheResolve (loadBooksSuccess s data now writeOk) none
        canceled).books = data ∧
    (cacheResolve (loadBooksSuccess s data now writeOk) (some c)
        true).books = data :=
  ⟨rfl, rfl, rfl⟩

/-- C6 counterexample: a create mutation submitted while the controller
is offline-flagged (`exOfflineState`, whose persisted snapshot slot is
empty) that succeeds leaves the offline flag set and writes no cache
snapshot — the create screen neither clears the flag nor persists the
collection, contrary to the claim's "create" case. -/
theorem claim6_counterexample :
    exOfflineState.offlineRef = true ∧
    (handleCreateSubmit exOfflineState (.ok bookAutre)).1.offlineMode
      = true ∧
    (handleCreateSubmit exOfflineState (.ok bookAutre)).1.cache = none :=
  ⟨rfl, rfl, rfl⟩

/-- C6 amended: for the list screen's update mutations (toggle-read,
toggle-favorite, rate) attempted while the offline flag is set, the
request is issued unconditionally; a failing mutation sets the offline
flag again and surfaces the error alert, and a succeeding mutation clears
the offline flag immediately and persists the updated collection to the
cache snapshot.  The create flow only alerts and leaves the controller
state untouched (the list refetches on focus return). -/
theorem claim6_list_screen_mutations (s : CtrlState) (b updated : Book)
    (q : ℚ) (now : Nat) (e : String) (_hoff : s.offlineRef = true) :
    ((handleToggleRead s b (.error e) now true).state.offlineMode = true ∧
      (handleToggleRead s b (.error e) now true).alert = some e) ∧
    ((handleToggleFavorite s b (.error e) now true).state.offlineMode
        = true ∧
      (handleToggleFavorite s b (.error e) now true).alert = some e) ∧
    ((handleRate s b q (.error e) now true).state.offlineMode = true ∧
      (handleRate s b q (.error e) now true).alert = some e) ∧
    ((handleToggleRead s b (.ok updated) now true).state.offlineMode
        = false ∧
      (handleToggleRead s b (.ok updated) now true).state.offlineRef
        = false ∧
      (handleToggleRead s b (.ok updated) now true).state.cache
        = some ⟨applyUpdate s.books b.id updated, now⟩) ∧
    ((handleToggleFavorite s b (.ok updated) now true).state.offlineMode
        = false ∧
      (handleToggleFavorite s b (.ok updated) now true).state.offlineRef
        = false ∧
      (handleToggleFavorite s b (.ok updated) now true).state.cache
        = some ⟨applyUpdate s.books b.id updated, now⟩) ∧
    ((handleRate s b q (.ok updated) now true).state.offlineMode = false ∧
      (handleRate s b q (.ok updated) now true).state.offlineRef = false ∧
      (handleRate s b q (.ok updated) now true).state.cache
        = some ⟨applyUpdate s.books b.id updated, now⟩) ∧
    (handleCreateSubmit s (.ok updated)).1 = s := by
  refine ⟨⟨rfl, rfl⟩, ⟨rfl, rfl⟩, ⟨rfl, rfl⟩, ⟨rfl, rfl, rfl⟩,
    ⟨rfl, rfl, rfl⟩, ⟨rfl, rfl, rfl⟩, rfl⟩

/-- C6 witness: the amended theorem applied to a concrete offline-flagged
state and concrete mutation outcomes. -/
theorem claim6_list_screen_mutations_witness :
    exOfflineState.offlineRef = true ∧
    (((handleToggleRead exOfflineState bookDune (.error "Err") 7
          true).state.offlineMode = true ∧
        (handleToggleRead exOfflineState bookDune (.error "Err") 7
          true).alert = some "Err") ∧
      ((handleToggleFavorite exOfflineState bookDune (.error "Err") 7
          true).state.offlineMode = true ∧
        (handleToggleFavorite exOfflineState bookDune (.error "Err") 7
          true).alert = some "Err") ∧
      ((handleRate exOfflineState bookDune 3 (.error "Err") 7
          true).state.offlineMode = true ∧
        (handleRate exOfflineState bookDune 3 (.error "Err") 7
          true).alert = some "Err") ∧
      ((handleToggleRead exOfflineState bookDune (.ok bookAutre) 7
          true).state.offlineMode = false ∧
        (handleToggleRead exOfflineState bookDune (.ok bookAutre) 7
          true).state.offlineRef = false ∧
        (handleToggleRead exOfflineState bookDune (.ok bookAutre) 7
          true).state.cache
          = some ⟨applyUpdate exOfflineState.books bookDune.id bookAutre,
              7⟩) ∧
      ((handleToggleFavorite exOfflineState bookDune (.ok bookAutre) 7
          true).state.offlineMode = false ∧
        (handleToggleFavorite exOfflineState bookDune (.ok bookAutre) 7
          true).state.offlineRef = false ∧
        (handleToggleFavorite exOfflineState bookDune (.ok bookAutre) 7
          true).state.cache
          = some ⟨applyUpdate exOfflineState.books bookDune.id bookAutre,
              7⟩) ∧
      ((handleRate exOfflineState bookDune 3 (.ok bookAutre) 7
          true).state.offlineMode = false ∧
        (handleRate exOfflineState bookDune 3 (.ok bookAutre) 7
          true).state.offlineRef = false ∧
        (handleRate exOfflineState bookDune 3 (.ok bookAutre) 7
          true).state.cache
          = some ⟨applyUpdate exOfflineState.books bookDune.id bookAutre,
              7⟩) ∧
      (handleCreateSubmit exOfflineState (.ok bookAutre)).1
        = exOfflineState) :=
  ⟨rfl, claim6_list_screen_mutations exOfflineState bookDune bookAutre 3 7
    "Err" rfl⟩

/-- C7 counterexample: with previously known theme `"Zola"` and a
resulting collection whose only theme is `"Science-fiction"`, the list
computed by `syncThemesFromData` differs from the list derived from the
resulting collection alone — stale themes are retained, so the theme list
is not re-derived "from the resulting in-memory collection". -/
theorem claim7_counterexample :
    syncThemesFromData ["Zola"] [bookDune]
      ≠ themesFromCollectionSpec [bookDune] := by
  decide

/-- C7 amended: every theme-list re-derivation produces the
deduplicated list, sorted by the (locale-modelling) total order, of the
union of the previously known themes and the truthy theme values of the
resulting collection, and the state write is skipped exactly when that
derived list is element-for-element identical to the previous one — in
which case the updater returns the previous list itself. -/
theorem claim7_theme_derivation (prev : List String) (data : List Book) :
    List.Sorted strLe (themesNext prev data) ∧
    (themesNext prev data).Nodup ∧
    (∀ x, x ∈ themesNext prev data ↔
      x ∈ prev ∨ ∃ b ∈ data, b.theme = some x ∧ x ≠ "") ∧
    (themesWriteSkipped prev data = true ↔ themesNext prev data = prev) ∧
    syncThemesFromData prev data = themesNext prev data := by
  refine ⟨themesNext_sorted prev data, themesNext_nodup prev data,
    mem_themesNext prev data, themesWriteSkipped_iff prev data, ?_⟩
  unfold syncThemesFromData
  split
  · next h => exact ((themesWriteSkipped_iff prev data).mp h).symm
  · rfl

/-- C8: the derived online boolean is true exactly when the device
reports a present connection and internet reachability is not explicitly
false (absent or unknown reachability counts as reachable); every other
combination is offline. -/
theorem claim8_online_iff (st : NetworkState) :
    isOnline st = true ↔
      st.isConnected = some true ∧ st.isInternetReachable ≠ some false := by
  unfold isOnline
  rw [Bool.and_eq_true, bne_iff_ne]
  constructor
  · rintro ⟨h1, h2⟩
    refine ⟨?_, h2⟩
    cases hc : st.isConnected with
    | none => rw [hc] at h1; simp at h1
    | some b => rw [hc] at h1; simp at h1; rw [h1]
  · rintro ⟨h1, h2⟩
    rw [h1]
    exact ⟨rfl, h2⟩

/-- C9: the rating persisted by the rate action (and set by the form's
star press) is the submitted number rounded to the nearest integer and
clamped to [1, 5]; the result always lies in [1, 5], and −3, 0, 6 and 5.6
resolve to 1, 1, 5 and 5 respectively. -/
theorem claim9_rating_clamp :
    (∀ q : ℚ, 1 ≤ boundedRating q ∧ boundedRating q ≤ 5) ∧
    boundedRating (-3) = 1 ∧ boundedRating 0 = 1 ∧
    boundedRating 6 = 5 ∧ boundedRating (28 / 5) = 5 ∧
    (∀ q : ℚ, ratePayloadRating q = some ((boundedRating q : ℤ) : ℚ)) := by
  refine ⟨fun q => ⟨le_min (le_max_right _ _) (by norm_num),
    min_le_right _ _⟩, ?_, ?_, ?_, ?_, fun q => rfl⟩
  all_goals norm_num [boundedRating, jsRound]

/-- C10: a failing update mutation (toggle-read, toggle-favorite or
rate) leaves the displayed book collection exactly as it was — no
element modified, added or removed on the error path. -/
theorem claim10_mutation_fail_books_unchanged (s : CtrlState) (b : Book)
    (q : ℚ) (now : Nat) (writeOk : Bool) (e : String) :
    (handleToggleRead s b (.error e) now writeOk).state.books = s.books ∧
    (handleToggleFavorite s b (.error e) now writeOk).state.books
      = s.books ∧
    (handleRate s b q (.error e) now writeOk).state.books = s.books :=
  ⟨rfl, rfl, rfl⟩
